import Mathlib

/-!
# Shallow embedding of `src/server.js` (Jinny chat relay)

This file embeds the conversation-context subsystem of the server:
the per-user context store (`userContexts`), `manageConversationHistory`,
the `transcript` / `reset-context` / `load-context` socket handlers, the
periodic staleness sweep, `handleAIError` and `handleGroqResponse`.

Remote provider calls (`openai.chat.completions.create`,
`groq.chat.completions.create`) are suspension points whose results come
from opaque services; they are embedded as oracle parameters
(`GroqRequest → CallResult GroqCompletion` and likewise for OpenAI), so a
handler is a pure function of the store, the event payload, the clock
(`Date.now()`) and the provider outcome.

JavaScript dynamic values that the code inspects (the `load-context`
payload, optional fields, thrown errors) are embedded explicitly:
`JsValue` with `typeof` and truthiness for the payload, `Option` for
absent/null fields, and `Except`/`CallResult` for thrown exceptions.
-/

set_option autoImplicit false

/-- A JavaScript value as far as the server inspects it: `load-context`
receives an arbitrary payload and checks `savedContext &&
typeof savedContext === "object"`. `vobj` is an opaque object identity. -/
inductive JsValue where
  | vnull
  | vundefined
  | vstr (s : String)
  | vnum (n : Int)
  | vbool (b : Bool)
  | vobj (id : Nat)
  deriving DecidableEq

/-- JavaScript `typeof` on the embedded values (`typeof null` is `"object"`). -/
def jsTypeof : JsValue → String
  | JsValue.vnull => "object"
  | JsValue.vundefined => "undefined"
  | JsValue.vstr _ => "string"
  | JsValue.vnum _ => "number"
  | JsValue.vbool _ => "boolean"
  | JsValue.vobj _ => "object"

/-- JavaScript truthiness on the embedded values. -/
def jsTruthy : JsValue → Bool
  | JsValue.vnull => false
  | JsValue.vundefined => false
  | JsValue.vstr s => s != ""
  | JsValue.vnum n => n != 0
  | JsValue.vbool b => b
  | JsValue.vobj _ => true

/-- JavaScript `String.prototype.trim`: strip leading and trailing
whitespace. (Defined on the character list so it evaluates by kernel
reduction; `String.trim` of core Lean is extensionally the same but is
compiled by well-founded recursion.) -/
def jsTrim (s : String) : String :=
  String.mk (((s.data.dropWhile Char.isWhitespace).reverse.dropWhile
    Char.isWhitespace).reverse)

/-- One message of a conversation context. `manageConversationHistory`
stores `{ role, content, timestamp: Date.now() }`; the seeded system turn
has no `timestamp` field, hence the `Option`. -/
structure Turn where
  role : String
  content : String
  timestamp : Option Int
  deriving DecidableEq

/-- The system prompt seeded at context creation (the template literal in
`manageConversationHistory`). -/
def systemPromptContent : String :=
  "You are Jinny, a warm and perceptive AI companion. Engage naturally as if in person, using conversational gestures and expressions. Keep responses concise yet meaningful.\n\n            Key traits:\n            - Speak naturally, as in a real conversation\n            - Show understanding through verbal gestures\n            - Build on previous context\n            - Guide users to related topics\n            - Adapt tone to match the user\n\n            Interaction style:\n            - Start with brief acknowledgment\n            - Give clear, focused responses\n            - End with relevant follow-up suggestions\n            - Remember key details about the user\n            - Keep technical terms simple unless user shows expertise\n\n            Example format: You might also be interested in [related topic] - would you like to explore that?\n\n            Remember: Focus on building rapport while being efficient with language. Suggest 1-2 relevant follow-ups based on user\x27s interests and previous conversations."

/-- The turn seeded at context creation: `{ role: "system", content: ... }`
with no `timestamp` field. -/
def systemTurn : Turn :=
  { role := "system", content := systemPromptContent, timestamp := none }

/-- A value stored in the `userContexts` map. Normally an array of turns;
after `load-context` runs its spread `{ ...existingContext,
userPreferences: savedContext }` the stored value is a plain object whose
index fields are the spread-out turns — it is no longer an array (no
`push`, no `length`). -/
inductive StoredContext where
  | turns (l : List Turn)
  | mergedObject (indexFields : List Turn) (userPreferences : JsValue)
  deriving DecidableEq

/-- The `userContexts` map, keyed by socket id. -/
abbrev Store := List (String × StoredContext)

/-- Map read `userContexts.get(k)` (first entry with the key). -/
def storeGet : Store → String → Option StoredContext
  | [], _ => none
  | (k, v) :: rest, key => if k == key then some v else storeGet rest key

/-- Map write `userContexts.set(k, v)`: replace in place, or append when absent. -/
def storeSet : Store → String → StoredContext → Store
  | [], key, v => [(key, v)]
  | (k, w) :: rest, key, v =>
      if k == key then (k, v) :: rest else (k, w) :: storeSet rest key v

/-- Map removal `userContexts.delete(k)`. -/
def storeDelete : Store → String → Store
  | [], _ => []
  | (k, w) :: rest, key =>
      if k == key then storeDelete rest key else (k, w) :: storeDelete rest key

/-- The size trim in `manageConversationHistory`:
`if (context.length > 11) context.splice(1, context.length - 11)` —
remove `length - 11` elements starting at index 1, keeping index 0 and the
last 10 elements. -/
def trimContext (context : List Turn) : List Turn :=
  if context.length > 11 then
    context.take 1 ++ context.drop (context.length - 10)
  else context

/-- Push of the timestamped message followed by the size trim (the body of
`manageConversationHistory` once the context array is in hand). -/
def appendTurn (context : List Turn) (message : String) (role : String)
    (now : Int) : List Turn :=
  trimContext (context ++ [{ role := role, content := message, timestamp := some now }])

/-- The function `manageConversationHistory(userId, message, role)` with the
default role "user", and with
`Date.now()` passed explicitly as `now`. Seeds `[systemTurn]` when the key
is absent, pushes the timestamped turn, trims, stores and returns the
context. When the stored value is the plain object produced by
`load-context`, `context.push` throws a `TypeError` (embedded as
`Except.error`). -/
def manageConversationHistory (store : Store) (userId : String)
    (message : String) (role : String) (now : Int) :
    Except String (Store × List Turn) :=
  match storeGet store userId with
  | none =>
      let context2 := appendTurn [systemTurn] message role now
      Except.ok (storeSet store userId (StoredContext.turns context2), context2)
  | some (StoredContext.turns context) =>
      let context2 := appendTurn context message role now
      Except.ok (storeSet store userId (StoredContext.turns context2), context2)
  | some (StoredContext.mergedObject _ _) =>
      Except.error "TypeError: context.push is not a function"

/-- One entry of the `AI_MODELS` table. -/
structure ModelConfig where
  provider : String
  maxTokens : Nat
  temperature : Rat
  deriving DecidableEq

/-- The `AI_MODELS` lookup table; an unknown key is `undefined` (`none`). -/
def AI_MODELS : String → Option ModelConfig
  | "gpt-3.5-turbo-16k" =>
      some { provider := "openai", maxTokens := 700, temperature := 7/10 }
  | "llama-3.1-70b-versatile" =>
      some { provider := "groq", maxTokens := 1024, temperature := 1 }
  | _ => none

/-- The fallback `data.model || "llama-3.1-70b-versatile"` : `none` embeds an absent or
null `model` field, `some ""` the empty string; both are falsy in
JavaScript, so both fall through to the default. -/
def selectModel (model : Option String) : String :=
  match model with
  | none => "llama-3.1-70b-versatile"
  | some s => if s == "" then "llama-3.1-70b-versatile" else s

/-- The `{role, content}` shape `handleGroqResponse` maps each message to
before sending upstream. Note it has no timestamp field. -/
structure ApiMessage where
  role : String
  content : String
  deriving DecidableEq

/-- The projection `messages.map(msg => ({ role: msg.role, content: msg.content }))`. -/
def groqMessages (messages : List Turn) : List ApiMessage :=
  messages.map (fun msg => { role := msg.role, content := msg.content })

/-- The request body `handleGroqResponse` passes to
`groq.chat.completions.create` (the model id is hardcoded there). -/
structure GroqRequest where
  messages : List ApiMessage
  model : String
  temperature : Rat
  max_tokens : Nat
  top_p : Rat
  stream : Bool
  deriving DecidableEq

/-- Build the Groq request from the stored turns and the model config. -/
def mkGroqRequest (messages : List Turn) (modelConfig : ModelConfig) :
    GroqRequest :=
  { messages := groqMessages messages
    model := "llama-3.1-70b-versatile"
    temperature := modelConfig.temperature
    max_tokens := modelConfig.maxTokens
    top_p := 1
    stream := false }

/-- The request body the `transcript` handler passes to
`openai.chat.completions.create`. Its `messages` field is the stored turn
array passed through unchanged (`messages: messages`), so its elements are
full `Turn`s, timestamps included. -/
structure OpenAIRequest where
  messages : List Turn
  model : String
  temperature : Rat
  max_tokens : Nat
  presence_penalty : Rat
  frequency_penalty : Rat
  top_p : Rat
  stream : Bool
  deriving DecidableEq

/-- Build the OpenAI request from the stored turns and the model config. -/
def mkOpenAIRequest (messages : List Turn) (selectedModel : String)
    (modelConfig : ModelConfig) : OpenAIRequest :=
  { messages := messages
    model := selectedModel
    temperature := modelConfig.temperature
    max_tokens := modelConfig.maxTokens
    presence_penalty := 3/5
    frequency_penalty := 3/10
    top_p := 9/10
    stream := false }

/-- A choice of a completion response (`choices[i].message`). -/
structure CompletionChoice where
  message : ApiMessage
  deriving DecidableEq

/-- A Groq completion. `choices` is `Option` because the response shape may
omit `choices` entirely (`!completion.choices`); an empty array is truthy
in JavaScript but makes `completion.choices[0]` undefined. -/
structure GroqCompletion where
  choices : Option (List CompletionChoice)
  deriving DecidableEq

/-- An OpenAI completion (the handler reads `choices[0]` unguarded). -/
structure OpenAICompletion where
  choices : List CompletionChoice
  deriving DecidableEq

/-- A JavaScript error as far as `handleAIError` inspects it:
`error.message`, `error.response?.status`, `error.code`. -/
structure JsError where
  message : String
  responseStatus : Option Int
  code : Option String
  deriving DecidableEq

/-- The error thrown by `handleGroqResponse` when `choices[0]` is missing:
`new Error("Invalid response from GROQ API")` (a plain `Error` has no
`response` and no `code`). -/
def invalidGroqError : JsError :=
  { message := "Invalid response from GROQ API", responseStatus := none, code := none }

/-- Outcome of an awaited remote call: a completion, or a thrown error. -/
inductive CallResult (α : Type) where
  | ok (a : α)
  | threw (e : JsError)
  deriving DecidableEq

/-- Validation of a Groq completion in `handleGroqResponse`:
`if (!completion.choices || !completion.choices[0]) throw new Error(...)`,
else return `completion.choices[0].message.content`. -/
def handleGroqResponse (completion : GroqCompletion) : Except JsError String :=
  match completion.choices with
  | none => Except.error invalidGroqError
  | some [] => Except.error invalidGroqError
  | some (choice :: _) => Except.ok choice.message.content

/-- An event emitted back to the client socket. -/
inductive OutEvent where
  | gptResponse (text : String) (model : String)
  | errorEvent (message : String) (details : String)
  | contextReset (message : String)
  deriving DecidableEq

/-- The function `handleAIError(error, socket)`: pick the sanitized message, emit
`error` with `{ message: errorMessage, details: error.message }`. -/
def handleAIError (error : JsError) : OutEvent :=
  let errorMessage :=
    if error.responseStatus == some 429 then
      "Rate limit exceeded. Please try again in a moment."
    else if error.code == some "ECONNREFUSED" then
      "Unable to connect to AI service. Please try again later."
    else "An error occurred while processing your request."
  OutEvent.errorEvent errorMessage error.message

/-- The `transcript` event payload `{final: string, model?: string}`:
`none` embeds an absent or null field, and for `model` the empty string is
also falsy (see `selectModel`). -/
structure TranscriptData where
  final : Option String
  model : Option String
  deriving DecidableEq

/-- The transcript event handler (`socket.on("transcript")`). `groqApi` and `openaiApi` are
the opaque remote services; `now` is `Date.now()` at the append. Returns
the store after the event and the events emitted to this socket.

Mirrors the source: guard `data.final && data.final.trim()`; append the
trimmed user text; `data.model || default`; `AI_MODELS[selectedModel]`
(`undefined` for an unknown id, so `.provider` throws, caught by the
`catch` into `handleAIError`); dispatch on `provider === "groq"`; on
success emit `gpt-response {text, model}`. No assistant turn is appended
anywhere. -/
def transcriptHandler (groqApi : GroqRequest → CallResult GroqCompletion)
    (openaiApi : OpenAIRequest → CallResult OpenAICompletion)
    (store : Store) (socketId : String) (data : TranscriptData)
    (now : Int) : Store × List OutEvent :=
  match data.final with
  | none => (store, [])
  | some f =>
    if f != "" && jsTrim f != "" then
      match manageConversationHistory store socketId (jsTrim f) "user" now with
      | Except.error msg =>
          (store, [handleAIError { message := msg, responseStatus := none, code := none }])
      | Except.ok (store1, messages) =>
        let selectedModel := selectModel data.model
        match AI_MODELS selectedModel with
        | none =>
            (store1, [handleAIError
              { message := "TypeError: Cannot read properties of undefined (reading \x27provider\x27)",
                responseStatus := none, code := none }])
        | some modelConfig =>
          if modelConfig.provider == "groq" then
            match groqApi (mkGroqRequest messages modelConfig) with
            | CallResult.threw e => (store1, [handleAIError e])
            | CallResult.ok completion =>
              match handleGroqResponse completion with
              | Except.error e => (store1, [handleAIError e])
              | Except.ok response =>
                  (store1, [OutEvent.gptResponse response selectedModel])
          else
            match openaiApi (mkOpenAIRequest messages selectedModel modelConfig) with
            | CallResult.threw e => (store1, [handleAIError e])
            | CallResult.ok completion =>
              match completion.choices with
              | [] =>
                  (store1, [handleAIError
                    { message := "TypeError: Cannot read properties of undefined (reading \x27message\x27)",
                      responseStatus := none, code := none }])
              | choice :: _ =>
                  (store1, [OutEvent.gptResponse choice.message.content selectedModel])
    else (store, [])

/-- The reset-context event handler (`socket.on("reset-context")`): delete the context, emit the
confirmation event. -/
def resetContextHandler (store : Store) (socketId : String) :
    Store × List OutEvent :=
  (storeDelete store socketId,
   [OutEvent.contextReset "Conversation context has been reset"])

/-- The field set a spread `{...existingContext}` copies: the index fields
of an array, or the index fields already held by a previous merge. -/
def contextSpreadFields : StoredContext → List Turn
  | StoredContext.turns l => l
  | StoredContext.mergedObject fields _ => fields

/-- The load-context event handler (`socket.on("load-context")`):
`if (savedContext && typeof savedContext === "object")` then store
`{ ...(userContexts.get(socket.id) || []), userPreferences: savedContext }` —
a plain object, not an array. -/
def loadContextHandler (store : Store) (socketId : String)
    (savedContext : JsValue) : Store :=
  if jsTruthy savedContext && (jsTypeof savedContext == "object") then
    let existingContext := (storeGet store socketId).getD (StoredContext.turns [])
    storeSet store socketId
      (StoredContext.mergedObject (contextSpreadFields existingContext) savedContext)
  else store

/-- The read `context[context.length - 1]` done by the staleness sweep: the last
element of an array; on the plain object produced by `load-context`,
`context.length` is `undefined` and the indexed read yields `undefined`. -/
def lastMessage : StoredContext → Option Turn
  | StoredContext.turns l => l.getLast?
  | StoredContext.mergedObject _ _ => none

/-- The per-context test of the sweep:
`lastMessage && (now - lastMessage.timestamp) > hour`. When the last turn
has no `timestamp` (the seeded system turn), `now - undefined` is `NaN`
and the comparison is false. -/
def contextIsStale (now : Int) (c : StoredContext) : Bool :=
  match lastMessage c with
  | some t =>
      match t.timestamp with
      | some ts => now - ts > 3600000
      | none => false
  | none => false

/-- The periodic cleanup `setInterval` body: delete every context whose
last message is older than one hour. -/
def sweepStale (now : Int) (store : Store) : Store :=
  store.filter (fun entry => !contextIsStale now entry.2)

-- Sanity checks (context-level appends, used to state the windowing claims)

/-- One append request as issued against the Context Store: role, content
and the `Date.now()` at the append. -/
structure AppendReq where
  role : String
  content : String
  now : Int
  deriving DecidableEq

/-- The turn an append request stores. -/
def toTurn (a : AppendReq) : Turn :=
  { role := a.role, content := a.content, timestamp := some a.now }

/-- A fresh context taken through a sequence of appends: what one
context of one connection is after `manageConversationHistory` ran once per
request (each run pushes then trims). -/
def runAppends (appends : List AppendReq) : List Turn :=
  appends.foldl (fun ctx a => appendTurn ctx a.content a.role a.now) [systemTurn]

/-- The non-system turns of a context. -/
def nonSystemTurns (context : List Turn) : List Turn :=
  context.filter (fun t => t.role != "system")

/-- Last `k` elements of a list. -/
def lastN {α : Type} (k : Nat) (l : List α) : List α :=
  l.drop (l.length - k)

-- Fixtures: concrete oracles and inputs used by closed theorems and witnesses

/-- A Groq service that replies with a fixed text (one well-formed choice). -/
def constGroqApi (reply : String) : GroqRequest → CallResult GroqCompletion :=
  fun _ => CallResult.ok
    { choices := some [{ message := { role := "assistant", content := reply } }] }

/-- An OpenAI service for runs whose branch never calls OpenAI. -/
def unusedOpenaiApi : OpenAIRequest → CallResult OpenAICompletion :=
  fun _ => CallResult.threw { message := "unused", responseStatus := none, code := none }

/-- A Groq service for runs whose branch never calls Groq. -/
def unusedGroqApi : GroqRequest → CallResult GroqCompletion :=
  fun _ => CallResult.threw { message := "unused", responseStatus := none, code := none }

/-- An OpenAI service that answers differently depending on whether any
message of the incoming request payload carries a timestamp field: what it
sees is exactly what the server sent upstream. -/
def timestampProbe : OpenAIRequest → CallResult OpenAICompletion :=
  fun req =>
    if req.messages.any (fun t => t.timestamp != none) then
      CallResult.ok
        { choices := [{ message := { role := "assistant", content := "timestamp-visible" } }] }
    else
      CallResult.ok
        { choices := [{ message := { role := "assistant", content := "no-timestamp" } }] }

/-- The turns of a stored array context (a merged object has none). -/
def turnsOf : StoredContext → List Turn
  | StoredContext.turns l => l
  | StoredContext.mergedObject _ _ => []

/-- Whether a stored value still is an ordered turn sequence (an array). -/
def isTurnSequence : Option StoredContext → Bool
  | some (StoredContext.turns _) => true
  | _ => false

/-- A concrete user turn. -/
def demoUserTurn : Turn := { role := "user", content := "hello", timestamp := some 1 }

/-- A store holding one freshly used context. -/
def c4Store : Store := [("sock", StoredContext.turns [systemTurn, demoUserTurn])]

/-- Eleven concrete user appends. -/
def demoAppends : List AppendReq :=
  (List.range 11).map (fun i => { role := "user", content := toString i, now := (i : Int) })

-- Helper lemmas about the sliding window

theorem lastN_of_length_le {α : Type} (k : Nat) (l : List α) (h : l.length ≤ k) :
    lastN k l = l := by
  unfold lastN
  have h0 : l.length - k = 0 := by omega
  rw [h0, List.drop_zero]

theorem length_lastN_le {α : Type} (k : Nat) (l : List α) : (lastN k l).length ≤ k := by
  unfold lastN
  rw [List.length_drop]
  omega

theorem lastN_append_absorb {α : Type} (k : Nat) (l m : List α) :
    lastN k (lastN k l ++ m) = lastN k (l ++ m) := by
  unfold lastN
  by_cases hk : k ≤ l.length
  · have hdlen : (l.drop (l.length - k)).length = k := by
      rw [List.length_drop]; omega
    rw [List.length_append, List.length_append, hdlen]
    have h1 : k + m.length - k = m.length := by omega
    have h2 : l.length + m.length - k = (l.length - k) + m.length := by omega
    have h3 : (l ++ m).drop (l.length - k) = l.drop (l.length - k) ++ m :=
      List.drop_append_of_le_length (by omega)
    rw [h1, h2, ← List.drop_drop, h3]
  · have h0 : l.length - k = 0 := by omega
    rw [h0, List.drop_zero]

theorem trimContext_cons (x : Turn) (tail : List Turn) :
    trimContext (x :: tail) = x :: lastN 10 tail := by
  unfold trimContext lastN
  by_cases h : (x :: tail).length > 11
  · rw [if_pos h]
    simp only [List.length_cons] at h ⊢
    have h10 : tail.length + 1 - 10 = (tail.length - 10) + 1 := by omega
    rw [h10, List.drop_succ_cons]
    rfl
  · rw [if_neg h]
    simp only [List.length_cons, not_lt] at h
    have h0 : tail.length - 10 = 0 := by omega
    rw [h0, List.drop_zero]

theorem appendTurn_cons (x : Turn) (tail : List Turn) (a : AppendReq) :
    appendTurn (x :: tail) a.content a.role a.now = x :: lastN 10 (tail ++ [toTurn a]) := by
  unfold appendTurn
  rw [show (x :: tail) ++ [{ role := a.role, content := a.content, timestamp := some a.now }]
      = x :: (tail ++ [toTurn a]) from rfl]
  exact trimContext_cons x (tail ++ [toTurn a])

theorem foldl_appendTurn (appends : List AppendReq) :
    ∀ tail : List Turn, tail.length ≤ 10 →
      appends.foldl (fun ctx a => appendTurn ctx a.content a.role a.now) (systemTurn :: tail)
        = systemTurn :: lastN 10 (tail ++ appends.map toTurn) := by
  induction appends with
  | nil =>
    intro tail h
    rw [List.foldl_nil, List.map_nil, List.append_nil, lastN_of_length_le 10 tail h]
  | cons a as ih =>
    intro tail h
    rw [List.foldl_cons]
    show List.foldl _ (appendTurn (systemTurn :: tail) a.content a.role a.now) as = _
    rw [appendTurn_cons, ih _ (length_lastN_le 10 _), lastN_append_absorb]
    rw [List.map_cons, List.append_assoc]
    rfl

theorem runAppends_eq (appends : List AppendReq) :
    runAppends appends = systemTurn :: lastN 10 (appends.map toTurn) := by
  unfold runAppends
  have h := foldl_appendTurn appends [] (by simp)
  simpa using h

theorem lastN_map_toTurn (appends : List AppendReq) :
    lastN 10 (appends.map toTurn) = (appends.drop (appends.length - 10)).map toTurn := by
  unfold lastN
  rw [List.length_map]
  exact (List.map_drop toTurn appends (appends.length - 10)).symm

-- Other helper lemmas

theorem contextIsStale_iff (now : Int) (c : StoredContext) :
    contextIsStale now c = true ↔
      ∃ t ts, lastMessage c = some t ∧ t.timestamp = some ts ∧ now - ts > 3600000 := by
  unfold contextIsStale
  cases hl : lastMessage c with
  | none => simp
  | some t =>
    cases hts : t.timestamp with
    | none => simp [hts]
    | some ts => simp [hts, decide_eq_true_eq]

theorem storeGet_storeDelete_self (store : Store) (key : String) :
    storeGet (storeDelete store key) key = none := by
  induction store with
  | nil => rfl
  | cons p rest ih =>
    obtain ⟨k, v⟩ := p
    unfold storeDelete
    by_cases hk : (k == key) = true
    · rw [if_pos hk]
      exact ih
    · rw [if_neg hk]
      unfold storeGet
      rw [if_neg hk]
      exact ih

theorem transcript_guard_true (f : String) (hf : jsTrim f ≠ "") :
    (f != "" && jsTrim f != "") = true := by
  have hne : f ≠ "" := by
    intro he
    exact hf (by rw [he]; rfl)
  simp [hne, hf]

-- Claim theorems

/-- Claim C1 (code bug, evaluated at the failing input): for the
end-to-end flow — fresh connection, transcript with final text "hello"
and the Groq model id, provider replying "hi there" — the handler emits
the reply event, but the stored context afterwards is only the system
turn plus the user turn: no assistant turn is ever appended, although the
specification requires the reply to be appended as a role=assistant turn. -/
theorem assistant_reply_never_appended :
    transcriptHandler (constGroqApi "hi there") unusedOpenaiApi [] "sock"
        { final := some "hello", model := some "llama-3.1-70b-versatile" } 1000
      = ([("sock", StoredContext.turns
            [systemTurn, { role := "user", content := "hello", timestamp := some 1000 }])],
         [OutEvent.gptResponse "hi there" "llama-3.1-70b-versatile"]) ∧
    (turnsOf ((storeGet (transcriptHandler (constGroqApi "hi there") unusedOpenaiApi [] "sock"
          { final := some "hello", model := some "llama-3.1-70b-versatile" } 1000).1
        "sock").getD (StoredContext.turns []))).any (fun t => t.role == "assistant") = false :=
  ⟨rfl, rfl⟩

/-- Claim C2: for every sequence of more than 10 user/assistant appends to
a fresh context, after each append exactly 10 non-system turns remain and
they are the most recently appended 10 in their original relative order
(the oldest non-system turns were dropped first). -/
theorem context_window_keeps_last_ten (appends : List AppendReq)
    (hlen : appends.length > 10)
    (hroles : ∀ a ∈ appends, a.role ≠ "system") :
    nonSystemTurns (runAppends appends)
        = (appends.drop (appends.length - 10)).map toTurn ∧
    (nonSystemTurns (runAppends appends)).length = 10 := by
  have hrun := runAppends_eq appends
  have hfilter : nonSystemTurns (runAppends appends) = lastN 10 (appends.map toTurn) := by
    rw [hrun]
    unfold nonSystemTurns
    rw [List.filter_cons_of_neg (by simp [systemTurn])]
    apply List.filter_eq_self.mpr
    intro t ht
    have hmem : t ∈ appends.map toTurn := List.mem_of_mem_drop ht
    obtain ⟨a, ha, rfl⟩ := List.mem_map.mp hmem
    simpa [toTurn, bne_iff_ne] using hroles a ha
  constructor
  · rw [hfilter, lastN_map_toTurn]
  · rw [hfilter]
    unfold lastN
    rw [List.length_drop, List.length_map]
    omega

/-- Witness for C2: eleven concrete appends leave exactly the last ten. -/
theorem context_window_keeps_last_ten_witness :
    nonSystemTurns (runAppends demoAppends)
        = (demoAppends.drop (demoAppends.length - 10)).map toTurn ∧
    (nonSystemTurns (runAppends demoAppends)).length = 10 :=
  context_window_keeps_last_ten demoAppends (by decide) (by decide)

/-- Claim C3: for every sequence of appends (any roles, any contents) to a
fresh context, the first element is always the seeded system turn —
trimming never removes it — and when the appended roles are the ones the
server uses (never "system"), it is the single system turn of the
context. -/
theorem context_first_turn_is_system (appends : List AppendReq) :
    (runAppends appends).head? = some systemTurn ∧
    ((∀ a ∈ appends, a.role ≠ "system") →
      ((runAppends appends).filter (fun t => t.role == "system")).length = 1) := by
  have hrun := runAppends_eq appends
  constructor
  · rw [hrun]; rfl
  · intro hroles
    rw [hrun, List.filter_cons_of_pos (by simp [systemTurn])]
    rw [List.filter_eq_nil_iff.mpr ?_]
    · rfl
    · intro t ht
      have hmem : t ∈ appends.map toTurn := List.mem_of_mem_drop ht
      obtain ⟨a, ha, rfl⟩ := List.mem_map.mp hmem
      simpa [toTurn] using hroles a ha

/-- Witness for C3 at eleven concrete appends. -/
theorem context_first_turn_is_system_witness :
    (runAppends demoAppends).head? = some systemTurn ∧
    ((runAppends demoAppends).filter (fun t => t.role == "system")).length = 1 :=
  ⟨(context_first_turn_is_system demoAppends).1,
   (context_first_turn_is_system demoAppends).2 (by decide)⟩

/-- Claim C4 (code bug, evaluated at the failing input): a load-context
event with a non-null object payload does not merge the payload alongside
the turn sequence — it replaces the stored array with a plain object (the
spread), so the stored context is no longer a turn sequence and the next
append throws a TypeError. Null and non-object payloads are indeed
rejected with no state change. -/
theorem load_context_replaces_turn_sequence :
    loadContextHandler c4Store "sock" (JsValue.vobj 0)
      = [("sock", StoredContext.mergedObject [systemTurn, demoUserTurn] (JsValue.vobj 0))] ∧
    isTurnSequence (storeGet (loadContextHandler c4Store "sock" (JsValue.vobj 0)) "sock")
      = false ∧
    manageConversationHistory (loadContextHandler c4Store "sock" (JsValue.vobj 0)) "sock"
        "again" "user" 2
      = Except.error "TypeError: context.push is not a function" ∧
    loadContextHandler c4Store "sock" JsValue.vnull = c4Store ∧
    loadContextHandler c4Store "sock" JsValue.vundefined = c4Store ∧
    loadContextHandler c4Store "sock" (JsValue.vstr "prefs") = c4Store ∧
    loadContextHandler c4Store "sock" (JsValue.vnum 3) = c4Store :=
  ⟨rfl, rfl, rfl, rfl, rfl, rfl, rfl⟩

/-- Counterexample to claim C5: on the OpenAI path the request payload is
the stored turn array passed through unchanged, timestamps included — an
OpenAI service that inspects the timestamp field of the incoming messages
observes it and can answer accordingly, so the timestamp field IS sent
upstream to that provider. -/
theorem openai_request_exposes_timestamps :
    (transcriptHandler unusedGroqApi timestampProbe [] "sock"
        { final := some "hello", model := some "gpt-3.5-turbo-16k" } 42).2
      = [OutEvent.gptResponse "timestamp-visible" "gpt-3.5-turbo-16k"] :=
  rfl

/-- Amended claim C5: only the Groq provider reduces each turn to exactly
the role/content shape — its request messages are the projection of the
turns and are unchanged by any timestamps — while the OpenAI provider
receives the stored turn objects as they are, timestamp field included. -/
theorem provider_request_shapes (messages : List Turn) (cfg : ModelConfig)
    (selectedModel : String) (now : Int) :
    (mkGroqRequest messages cfg).messages
        = messages.map (fun t => ({ role := t.role, content := t.content } : ApiMessage)) ∧
    mkGroqRequest (messages.map (fun t => { t with timestamp := some now })) cfg
        = mkGroqRequest messages cfg ∧
    (mkOpenAIRequest messages selectedModel cfg).messages = messages := by
  refine ⟨rfl, ?_, rfl⟩
  simp only [mkGroqRequest, groqMessages, List.map_map]
  rfl

/-- Claim C6: when the Groq completion lacks choices, or choices is empty,
the adapter returns the malformed-response error instead of crashing, and
the transcript handler emits an error event whose message field is the
fixed generic string — never the raw exception text, which only appears
in the separate details field. -/
theorem groq_malformed_response_sanitized (completion : GroqCompletion)
    (hmal : completion.choices = none ∨ completion.choices = some [])
    (openaiApi : OpenAIRequest → CallResult OpenAICompletion)
    (socketId f : String) (now : Int) (hf : jsTrim f ≠ "") :
    handleGroqResponse completion = Except.error invalidGroqError ∧
    (transcriptHandler (fun _ => CallResult.ok completion) openaiApi [] socketId
        { final := some f, model := none } now).2
      = [OutEvent.errorEvent "An error occurred while processing your request."
          "Invalid response from GROQ API"] ∧
    "An error occurred while processing your request." ≠ invalidGroqError.message := by
  obtain ⟨chs⟩ := completion
  have hgr : handleGroqResponse ⟨chs⟩ = Except.error invalidGroqError := by
    rcases hmal with h | h <;> (simp only at h; subst h; rfl)
  refine ⟨hgr, ?_, by decide⟩
  unfold transcriptHandler
  simp only [transcript_guard_true f hf, if_true, hgr]
  rfl

/-- Witness for C6: a completion with no choices field at all. -/
theorem groq_malformed_response_sanitized_witness :
    handleGroqResponse { choices := none } = Except.error invalidGroqError ∧
    (transcriptHandler (fun _ => CallResult.ok { choices := none }) unusedOpenaiApi [] "sock"
        { final := some "hello", model := none } 7).2
      = [OutEvent.errorEvent "An error occurred while processing your request."
          "Invalid response from GROQ API"] ∧
    "An error occurred while processing your request." ≠ invalidGroqError.message :=
  groq_malformed_response_sanitized { choices := none } (Or.inl rfl)
    unusedOpenaiApi "sock" "hello" 7 (by decide)

/-- Claim C7: an entry of the store survives the staleness sweep exactly
when it is NOT the case that its last message carries a timestamp older
than the strict 1-hour threshold; in particular a context touched at or
just before the threshold survives, and a context holding only the seeded
system turn (which has no timestamp) always survives. -/
theorem staleness_sweep_boundary (now : Int) (store : Store) (k : String)
    (c : StoredContext) (hmem : (k, c) ∈ store) :
    ((k, c) ∈ sweepStale now store ↔
      ¬ ∃ t ts, lastMessage c = some t ∧ t.timestamp = some ts ∧ now - ts > 3600000) ∧
    (c = StoredContext.turns [systemTurn] → (k, c) ∈ sweepStale now store) := by
  have hmemf : (k, c) ∈ sweepStale now store ↔
      ((k, c) ∈ store ∧ (!contextIsStale now c) = true) := by
    unfold sweepStale
    exact List.mem_filter
  constructor
  · rw [hmemf]
    simp only [hmem, true_and, Bool.not_eq_true']
    rw [Bool.eq_false_iff]
    exact not_congr (contextIsStale_iff now c)
  · intro hc
    rw [hmemf]
    refine ⟨hmem, ?_⟩
    subst hc
    rfl

/-- Witness for C7: a one-entry store with a fresh context. -/
theorem staleness_sweep_boundary_witness :
    (("sock", StoredContext.turns [demoUserTurn])
        ∈ sweepStale 2 [("sock", StoredContext.turns [demoUserTurn])] ↔
      ¬ ∃ t ts, lastMessage (StoredContext.turns [demoUserTurn]) = some t ∧
        t.timestamp = some ts ∧ (2 : Int) - ts > 3600000) ∧
    (StoredContext.turns [demoUserTurn] = StoredContext.turns [systemTurn] →
      ("sock", StoredContext.turns [demoUserTurn])
        ∈ sweepStale 2 [("sock", StoredContext.turns [demoUserTurn])]) :=
  staleness_sweep_boundary 2 [("sock", StoredContext.turns [demoUserTurn])] "sock"
    (StoredContext.turns [demoUserTurn]) (by decide)

/-- Claim C8: a transcript event whose final text trims to the empty
string changes nothing: the handler returns the store unchanged and emits
nothing, for every provider oracle — so no provider call is made and no
turn is appended. -/
theorem whitespace_transcript_ignored
    (groqApi : GroqRequest → CallResult GroqCompletion)
    (openaiApi : OpenAIRequest → CallResult OpenAICompletion)
    (store : Store) (socketId : String) (s : String) (model : Option String)
    (now : Int) (h : jsTrim s = "") :
    transcriptHandler groqApi openaiApi store socketId
      { final := some s, model := model } now = (store, []) := by
  have hguard : (s != "" && jsTrim s != "") = false := by
    rw [h]
    simp
  unfold transcriptHandler
  simp only [hguard, Bool.false_eq_true, if_false]

/-- Witness for C8: a three-space transcript. -/
theorem whitespace_transcript_ignored_witness :
    transcriptHandler unusedGroqApi unusedOpenaiApi [] "sock"
      { final := some "   ", model := none } 5 = ([], []) :=
  whitespace_transcript_ignored unusedGroqApi unusedOpenaiApi [] "sock" "   " none 5
    (by decide)

/-- Claim C9: reset-context deletes the context unconditionally (no error
for any store, including one with no entry for the connection) and emits
the confirmation event, and a following append produces exactly the
system turn plus that one new turn. -/
theorem reset_context_unconditional_then_append (store : Store)
    (socketId message role : String) (now : Int) :
    (resetContextHandler store socketId).2
        = [OutEvent.contextReset "Conversation context has been reset"] ∧
    storeGet (resetContextHandler store socketId).1 socketId = none ∧
    manageConversationHistory (resetContextHandler store socketId).1 socketId
        message role now
      = Except.ok
          (storeSet (resetContextHandler store socketId).1 socketId
            (StoredContext.turns [systemTurn,
              { role := role, content := message, timestamp := some now }]),
           [systemTurn, { role := role, content := message, timestamp := some now }]) := by
  refine ⟨rfl, storeGet_storeDelete_self store socketId, ?_⟩
  unfold manageConversationHistory
  rw [show storeGet (resetContextHandler store socketId).1 socketId = none from
      storeGet_storeDelete_self store socketId]
  rfl

/-- Claim C10: a transcript whose model field is any falsy value —
absent/null (`none`) or the empty string — resolves to the default model
id, and the reply event reports that default id as the model used. -/
theorem falsy_model_defaults (model : Option String)
    (hfalsy : model = none ∨ model = some "")
    (openaiApi : OpenAIRequest → CallResult OpenAICompletion)
    (socketId reply f : String) (now : Int) (hf : jsTrim f ≠ "") :
    selectModel model = "llama-3.1-70b-versatile" ∧
    (transcriptHandler (constGroqApi reply) openaiApi [] socketId
        { final := some f, model := model } now).2
      = [OutEvent.gptResponse reply "llama-3.1-70b-versatile"] := by
  have hsel : selectModel model = "llama-3.1-70b-versatile" := by
    rcases hfalsy with h | h <;> subst h <;> rfl
  refine ⟨hsel, ?_⟩
  unfold transcriptHandler
  simp only [transcript_guard_true f hf, if_true, hsel]
  rfl

/-- Witness for C10: an empty-string model id. -/
theorem falsy_model_defaults_witness :
    selectModel (some "") = "llama-3.1-70b-versatile" ∧
    (transcriptHandler (constGroqApi "hi") unusedOpenaiApi [] "sock"
        { final := some "hello", model := some "" } 7).2
      = [OutEvent.gptResponse "hi" "llama-3.1-70b-versatile"] :=
  falsy_model_defaults (some "") (Or.inr rfl) unusedOpenaiApi "sock" "hi" "hello" 7
    (by decide)
